import Mathlib

/-!
Shallow embedding of the Health_Records canister (`src/src/index.ts`, Azle /
Internet Computer). The canister keeps five `StableBTreeMap`s — patients,
health records, doctors, prescriptions, lab tests — and exposes CRUD-style
operations over them.

Modelling conventions:
* `StableBTreeMap<string, T>` is modelled as an association list with unique
  keys (`Store`), with `get` / `insert` (upsert) / `remove` matching the map
  interface the code uses.
* `nat64` timestamps are `Nat`; the Candid `Opt` is `Option`.
* The environment collaborators `uuidv4()` and `ic.time()` are passed in as
  explicit arguments (`newId`, `now`) to each mutating operation.
* Every mutating operation takes the five-store state `DB` and returns the
  result together with the new state; queries are read-only functions.
* JavaScript truthiness of the checked values: `!s` for a string is true
  exactly for `""`; `!n` for a `nat64` (BigInt) is true exactly for `0`; the
  Azle `Opt` returned by `StableBTreeMap.get` is a variant object
  (`{Some: v}` / `{None: null}`) and is therefore always truthy — see
  `jsFalsy` below.
-/

namespace HealthRecords

/-- `type Patient = Record<{...}>` (index.ts lines 36–45). `age` is declared
`number` but is `nat64` in the Candid interface, hence `Nat`. -/
structure Patient where
  id : String
  name : String
  age : Nat
  gender : String
  bloodType : String
  medicalHistory : String
  createdAt : Nat
  updatedAt : Option Nat
deriving DecidableEq, Repr

/-- `type HealthRecord = Record<{...}>` (lines 49–58). -/
structure HealthRecord where
  id : String
  patientID : String
  uniqueNumber : String
  officerID : String
  diagnosisNotes : String
  labTestIDs : Option (List String)
  prescriptionIDs : List String
  createdAt : Nat
deriving DecidableEq, Repr

/-- `type Doctor = Record<{...}>` (lines 62–67). -/
structure Doctor where
  id : String
  name : String
  specialization : String
  createdAt : Nat
deriving DecidableEq, Repr

/-- `type Prescription = Record<{...}>` (lines 71–78). -/
structure Prescription where
  id : String
  doctorID : String
  patientID : String
  medication : String
  dosage : String
  createdAt : Nat
deriving DecidableEq, Repr

/-- `type LabTest = Record<{...}>` (lines 82–89). -/
structure LabTest where
  id : String
  patientID : String
  doctorID : String
  testType : String
  results : String
  createdAt : Nat
deriving DecidableEq, Repr

/-- `type Error = Variant<{ NotFound: string; InvalidPayload: string }>`
(lines 93–96). -/
inductive Error where
  | NotFound (msg : String)
  | InvalidPayload (msg : String)
deriving DecidableEq, Repr

instance {ε α : Type} [DecidableEq ε] [DecidableEq α] : DecidableEq (Except ε α) :=
  fun x y => by
    rcases x with e | a <;> rcases y with f | b
    · exact decidable_of_iff (e = f) (by simp)
    · exact .isFalse (by simp)
    · exact .isFalse (by simp)
    · exact decidable_of_iff (a = b) (by simp)

/-- A `StableBTreeMap<string, α>`, modelled as an association list whose keys
are unique (the map interface never exposes duplicate keys). -/
abbrev Store (α : Type) : Type := List (String × α)

/-- `StableBTreeMap.get(key)`: the binding for `key`, if any. -/
def Store.get {α : Type} : Store α → String → Option α
  | [], _ => none
  | (k, v) :: rest, key => if k = key then some v else Store.get rest key

/-- `StableBTreeMap.insert(key, val)`: upsert — overwrites an existing
binding for `key`, otherwise appends a new one. -/
def Store.insert {α : Type} : Store α → String → α → Store α
  | [], key, val => [(key, val)]
  | (k, v) :: rest, key, val =>
      if k = key then (key, val) :: rest else (k, v) :: Store.insert rest key val

/-- `StableBTreeMap.remove(key)`: returns the removed binding (if any)
together with the map with that binding deleted. -/
def Store.remove {α : Type} (s : Store α) (key : String) : Option α × Store α :=
  (s.get key, s.filter (fun p => decide (p.1 ≠ key)))

/-- The five stores declared at lines 99–103 of index.ts. -/
structure DB where
  patients : Store Patient
  healthRecords : Store HealthRecord
  doctors : Store Doctor
  prescriptions : Store Prescription
  labTests : Store LabTest
deriving DecidableEq, Repr

/-- JavaScript truthiness of the value `StableBTreeMap.get` returns: it is
the Azle `Opt` variant object (`{Some: v}` or `{None: null}`), and any object
is truthy in JavaScript, so `!opt` evaluates to `false` for both
constructors. The source's `if (!existingPatientOpt)`-style reference checks
therefore never fire. -/
def jsFalsy {α : Type} (_ : Option α) : Bool := false

/-- `addPatient(payload)` (lines 107–150): presence check on the five payload
fields (`!field` — empty string / zero age), then the age, gender, blood-type
and medical-history rules, then insert `{...payload, id, createdAt,
updatedAt: None}` and return it. -/
def addPatient (db : DB) (newId : String) (now : Nat) (payload : Patient) :
    Except Error Patient × DB :=
  if payload.name = "" ∨ payload.age = 0 ∨ payload.gender = "" ∨
      payload.bloodType = "" ∨ payload.medicalHistory = "" then
    (.error (.InvalidPayload "Invalid patient payload"), db)
  else if payload.age ≤ 0 then
    (.error (.InvalidPayload "Invalid age"), db)
  else if payload.gender ≠ "male" ∧ payload.gender ≠ "female" then
    (.error (.InvalidPayload "Invalid gender"), db)
  else if payload.bloodType ≠ "A" ∧ payload.bloodType ≠ "B" ∧
      payload.bloodType ≠ "AB" ∧ payload.bloodType ≠ "O" then
    (.error (.InvalidPayload "Invalid blood type"), db)
  else if payload.medicalHistory.length > 1000 then
    (.error (.InvalidPayload "Invalid medical history"), db)
  else
    let patient : Patient :=
      { payload with id := newId, createdAt := now, updatedAt := none }
    (.ok patient, { db with patients := db.patients.insert patient.id patient })

/-- `getPatient(id)` (lines 165–181): rejects a falsy id (the empty string),
then looks the id up. The source interpolates the id into the NotFound
message; the message text is fixed here. Read-only. -/
def getPatient (db : DB) (id : String) : Except Error Patient :=
  if id = "" then
    .error (.NotFound "Invalid patient ID")
  else
    match db.patients.get id with
    | some patient => .ok patient
    | none => .error (.NotFound "The patient with the given ID not found")

/-- `updatePatient(id, payload)` (lines 185–215): rejects a falsy id, then
the presence check on the payload fields, then looks the id up. On a hit the
source builds `{...existingPatient, ...payload, updatedAt: Opt.Some(ic.time())}`;
`payload` is a complete `Patient` record, so the spread overwrites every
field of the existing record (including `id` and `createdAt`) and only
`updatedAt` is reassigned afterwards. The result is inserted under the
looked-up key `id` (not under `payload.id`). -/
def updatePatient (db : DB) (now : Nat) (id : String) (payload : Patient) :
    Except Error Patient × DB :=
  if id = "" then
    (.error (.NotFound "Invalid patient ID"), db)
  else if payload.name = "" ∨ payload.age = 0 ∨ payload.gender = "" ∨
      payload.bloodType = "" ∨ payload.medicalHistory = "" then
    (.error (.InvalidPayload "Invalid patient payload"), db)
  else
    match db.patients.get id with
    | some _existingPatient =>
        let updatedPatient : Patient := { payload with updatedAt := some now }
        (.ok updatedPatient,
         { db with patients := db.patients.insert id updatedPatient })
    | none =>
        (.error (.NotFound "Patient not found"), db)

/-- `deletePatient(id)` (lines 219–235): rejects a falsy id, then removes the
binding; `Some` of the removed patient on a hit, `NotFound` on a miss (the
removal of an absent key leaves the map as it was). -/
def deletePatient (db : DB) (id : String) : Except Error Patient × DB :=
  if id = "" then
    (.error (.NotFound "Invalid patient ID"), db)
  else
    let removed := db.patients.remove id
    let db' : DB := { db with patients := removed.2 }
    match removed.1 with
    | some deletedPatient => (.ok deletedPatient, db')
    | none => (.error (.NotFound "Patient not found"), db')

/-- `addHealthRecord(payload)` (lines 239–269): presence check on patientID /
officerID / diagnosisNotes; then the source's `if (!existingPatientOpt)`
patient-existence check — dead, because the Azle `Opt` object is always
truthy (`jsFalsy`); then insert `{...payload, id, createdAt, labTestIDs:
None, prescriptionIDs: []}`. -/
def addHealthRecord (db : DB) (newId : String) (now : Nat) (payload : HealthRecord) :
    Except Error HealthRecord × DB :=
  if payload.patientID = "" ∨ payload.officerID = "" ∨ payload.diagnosisNotes = "" then
    (.error (.InvalidPayload "Invalid health record payload"), db)
  else
    let existingPatientOpt := db.patients.get payload.patientID
    if jsFalsy existingPatientOpt then
      (.error (.NotFound "Patient not found"), db)
    else
      let healthRecord : HealthRecord :=
        { payload with
          id := newId, createdAt := now, labTestIDs := none, prescriptionIDs := [] }
      (.ok healthRecord,
       { db with healthRecords := db.healthRecords.insert healthRecord.id healthRecord })

/-- `addDoctor(payload)` (lines 284–306): presence check on name /
specialization, then insert `{...payload, id, createdAt}`. -/
def addDoctor (db : DB) (newId : String) (now : Nat) (payload : Doctor) :
    Except Error Doctor × DB :=
  if payload.name = "" ∨ payload.specialization = "" then
    (.error (.InvalidPayload "Invalid doctor payload"), db)
  else
    let doctor : Doctor := { payload with id := newId, createdAt := now }
    (.ok doctor, { db with doctors := db.doctors.insert doctor.id doctor })

/-- `addPrescription(payload)` (lines 321–379): presence check on the four
payload fields; then the source's `if (!existingPatientOpt ||
!existingDoctorOpt)` reference check — dead (`jsFalsy`); then the new
prescription `{...payload, id, createdAt}` is inserted. Linkage (lines
346–371): `healthRecordsStorage.get(payload.patientID)` — the health-record
store keyed by the *patient's* id; the JS guard
`healthRecordOpt && healthRecordOpt.Some?.prescriptionIDs` holds exactly when
that lookup found a record (`healthRecordOpt` is always truthy, and
`prescriptionIDs` is a JS array, truthy even when empty). On a hit the record
is rebuilt with the new prescription id appended to `prescriptionIDs`
(`Opt.Some([...prescriptionIDs, prescription.id])`, then `.Some || []`
extracts the array) and re-inserted under the record's own `id` field. -/
def addPrescription (db : DB) (newId : String) (now : Nat) (payload : Prescription) :
    Except Error Prescription × DB :=
  if payload.doctorID = "" ∨ payload.patientID = "" ∨
      payload.medication = "" ∨ payload.dosage = "" then
    (.error (.InvalidPayload "Invalid prescription payload"), db)
  else
    let existingPatientOpt := db.patients.get payload.patientID
    let existingDoctorOpt := db.doctors.get payload.doctorID
    if jsFalsy existingPatientOpt || jsFalsy existingDoctorOpt then
      (.error (.NotFound "Patient or doctor not found"), db)
    else
      let prescription : Prescription := { payload with id := newId, createdAt := now }
      let db1 : DB :=
        { db with prescriptions := db.prescriptions.insert prescription.id prescription }
      match db1.healthRecords.get payload.patientID with
      | some healthRecord =>
          let definedPropertiesHealthRecord : HealthRecord :=
            { healthRecord with
              prescriptionIDs := healthRecord.prescriptionIDs ++ [prescription.id] }
          (.ok prescription,
           { db1 with
             healthRecords :=
               db1.healthRecords.insert definedPropertiesHealthRecord.id
                 definedPropertiesHealthRecord })
      | none => (.ok prescription, db1)

/-- `addLabTest(payload)` (lines 394–445): mirrors `addPrescription`. The
linkage guard is `healthRecordOpt && healthRecordOpt.Some?.labTestIDs`;
`labTestIDs` is itself an Azle `Opt` object, always truthy, so the guard
again holds exactly when the record was found. The new lab-test id is
appended to `labTestIDs.Some || []`, wrapped back in `Some`; the
`Object.fromEntries` filter of defined properties is the identity (every
field is defined); the record is re-inserted under its own `id` field. -/
def addLabTest (db : DB) (newId : String) (now : Nat) (payload : LabTest) :
    Except Error LabTest × DB :=
  if payload.doctorID = "" ∨ payload.patientID = "" ∨
      payload.testType = "" ∨ payload.results = "" then
    (.error (.InvalidPayload "Invalid lab test payload"), db)
  else
    let existingPatientOpt := db.patients.get payload.patientID
    let existingDoctorOpt := db.doctors.get payload.doctorID
    if jsFalsy existingPatientOpt || jsFalsy existingDoctorOpt then
      (.error (.NotFound "Patient or doctor not found"), db)
    else
      let labTest : LabTest := { payload with id := newId, createdAt := now }
      let db1 : DB := { db with labTests := db.labTests.insert labTest.id labTest }
      match db1.healthRecords.get payload.patientID with
      | some healthRecord =>
          let labTestIDs := healthRecord.labTestIDs.getD []
          let updatedHealthRecord : HealthRecord :=
            { healthRecord with labTestIDs := some (labTestIDs ++ [labTest.id]) }
          (.ok labTest,
           { db1 with
             healthRecords :=
               db1.healthRecords.insert updatedHealthRecord.id updatedHealthRecord })
      | none => (.ok labTest, db1)

/-- Conjunction of exactly the checks `addPatient` performs on its payload
(the negation of each rejecting condition, in source order). -/
def ValidPatientPayload (p : Patient) : Prop :=
  ¬(p.name = "" ∨ p.age = 0 ∨ p.gender = "" ∨ p.bloodType = "" ∨ p.medicalHistory = "") ∧
  ¬(p.age ≤ 0) ∧
  ¬(p.gender ≠ "male" ∧ p.gender ≠ "female") ∧
  ¬(p.bloodType ≠ "A" ∧ p.bloodType ≠ "B" ∧ p.bloodType ≠ "AB" ∧ p.bloodType ≠ "O") ∧
  ¬(p.medicalHistory.length > 1000)

instance (p : Patient) : Decidable (ValidPatientPayload p) := by
  unfold ValidPatientPayload; infer_instance

/-- Whether a service call succeeded. -/
def resultOk {α : Type} : Except Error α → Bool
  | .ok _ => true
  | .error _ => false

def Error.isNotFound : Error → Bool
  | .NotFound _ => true
  | .InvalidPayload _ => false

def Error.isInvalidPayload : Error → Bool
  | .NotFound _ => false
  | .InvalidPayload _ => true

/-- Whether a result is a `NotFound` error. -/
def errIsNotFound {α : Type} : Except Error α → Bool
  | .error e => e.isNotFound
  | .ok _ => false

/-- Whether a result is an `InvalidPayload` error. -/
def errIsInvalidPayload {α : Type} : Except Error α → Bool
  | .error e => e.isInvalidPayload
  | .ok _ => false

/- Concrete states and payloads used by the example-level theorems. -/

def emptyDB : DB := ⟨[], [], [], [], []⟩

def alice : Patient :=
  { id := "p1", name := "Alice", age := 30, gender := "female",
    bloodType := "O", medicalHistory := "none", createdAt := 100, updatedAt := none }

/-- A state holding the single patient `alice` under her id. -/
def db1 : DB := { emptyDB with patients := [("p1", alice)] }

/-- A full-`Patient` update payload carrying a foreign `id` and a late
`createdAt`; all validated fields are present and non-empty. -/
def bobPayload : Patient :=
  { id := "p2", name := "Bob", age := 40, gender := "male",
    bloodType := "B", medicalHistory := "hx", createdAt := 999, updatedAt := none }

/-- `alice`'s fields with a gender outside the two admitted literals. -/
def aliceBadGender : Patient := { alice with gender := "unknown" }

/-- The spec's example payload: `{name: "Alice", age: 30, gender: "female",
bloodType: "O", medicalHistory: ""}` (the caller does not choose id /
createdAt / updatedAt; they are zeroed here). -/
def aliceExamplePayload : Patient :=
  { id := "", name := "Alice", age := 30, gender := "female",
    bloodType := "O", medicalHistory := "", createdAt := 0, updatedAt := none }

/-- A prescription payload whose four validated fields are non-empty but
whose doctor and patient references do not exist in `emptyDB`. -/
def rxPayload : Prescription :=
  { id := "x", doctorID := "d1", patientID := "p1",
    medication := "m", dosage := "1x", createdAt := 0 }

/-- A lab-test payload with non-empty fields. -/
def ltPayload : LabTest :=
  { id := "x", patientID := "p1", doctorID := "d1",
    testType := "t", results := "r", createdAt := 0 }

/-- A health-record payload with non-empty validated fields, a patientID
absent from every store, and junk caller-supplied link lists. -/
def hrPayload : HealthRecord :=
  { id := "x", patientID := "p9", uniqueNumber := "u", officerID := "o1",
    diagnosisNotes := "dx", labTestIDs := some ["junk"],
    prescriptionIDs := ["junk2"], createdAt := 0 }

/-- A health record stored under the key `"p1"` (the patient's id) whose own
`id` field is `"h1"` — the shape the linkage code of `addPrescription` /
`addLabTest` reads (it fetches by patientID and re-inserts under `.id`). -/
def hrAtP1 : HealthRecord :=
  { id := "h1", patientID := "p1", uniqueNumber := "u1", officerID := "o1",
    diagnosisNotes := "dx", labTestIDs := none, prescriptionIDs := [], createdAt := 5 }

/-- A state whose health-record store has `hrAtP1` filed under the patient id
`"p1"`. -/
def dbHR : DB := { emptyDB with healthRecords := [("p1", hrAtP1)] }

/-- An all-blank patient payload (fails the presence check). -/
def blankPatient : Patient :=
  { id := "", name := "", age := 0, gender := "", bloodType := "",
    medicalHistory := "", createdAt := 0, updatedAt := none }

/-- An all-blank doctor payload. -/
def blankDoctor : Doctor := { id := "", name := "", specialization := "", createdAt := 0 }

/-- An all-blank health-record payload. -/
def blankHealthRecord : HealthRecord :=
  { id := "", patientID := "", uniqueNumber := "", officerID := "",
    diagnosisNotes := "", labTestIDs := none, prescriptionIDs := [], createdAt := 0 }

/-- An all-blank prescription payload. -/
def blankPrescription : Prescription :=
  { id := "", doctorID := "", patientID := "", medication := "", dosage := "",
    createdAt := 0 }

/-- An all-blank lab-test payload. -/
def blankLabTest : LabTest :=
  { id := "", patientID := "", doctorID := "", testType := "", results := "",
    createdAt := 0 }

/-! ## Store lemmas -/

theorem Store.get_insert_self {α : Type} (s : Store α) (k : String) (v : α) :
    (s.insert k v).get k = some v := by
  induction s with
  | nil => simp [Store.insert, Store.get]
  | cons hd tl ih =>
      obtain ⟨k0, v0⟩ := hd
      by_cases h : k0 = k
      · simp [Store.insert, h, Store.get]
      · simp [Store.insert, h, Store.get, ih]

theorem Store.get_filter_self {α : Type} (s : Store α) (k : String) :
    Store.get (List.filter (fun p => decide (p.1 ≠ k)) s) k = none := by
  induction s with
  | nil => simp [Store.get]
  | cons hd tl ih =>
      obtain ⟨k0, v0⟩ := hd
      by_cases h : k0 = k
      · simpa [List.filter_cons, h] using ih
      · simpa [List.filter_cons, h, Store.get] using ih

theorem Store.filter_eq_of_get_none {α : Type} (s : Store α) (k : String)
    (h : Store.get s k = none) : List.filter (fun p => decide (p.1 ≠ k)) s = s := by
  induction s with
  | nil => rfl
  | cons hd tl ih =>
      obtain ⟨k0, v0⟩ := hd
      by_cases hk : k0 = k
      · simp [Store.get, hk] at h
      · simp only [Store.get, if_neg hk] at h
        simp only [List.filter_cons]
        rw [if_pos (by simp [hk]), ih h]

/-! ## Error-frame lemmas: every failing call leaves the state untouched -/

theorem addPatient_error_frame (db : DB) (newId : String) (now : Nat) (p : Patient)
    (h : resultOk (addPatient db newId now p).1 = false) :
    (addPatient db newId now p).2 = db := by
  unfold addPatient at h ⊢
  split_ifs at h ⊢ <;> first | rfl | simp [resultOk] at h

theorem updatePatient_error_frame (db : DB) (now : Nat) (id : String) (p : Patient)
    (h : resultOk (updatePatient db now id p).1 = false) :
    (updatePatient db now id p).2 = db := by
  unfold updatePatient at h ⊢
  split_ifs at h ⊢ <;> try rfl
  cases hg : Store.get db.patients id <;> simp only [hg] at h ⊢
  simp [resultOk] at h

theorem deletePatient_error_frame (db : DB) (id : String)
    (h : resultOk (deletePatient db id).1 = false) :
    (deletePatient db id).2 = db := by
  unfold deletePatient at h ⊢
  split_ifs at h ⊢ <;> try rfl
  cases hg : Store.get db.patients id <;>
    simp only [Store.remove, hg] at h ⊢
  · rw [Store.filter_eq_of_get_none db.patients id hg]
  · simp [resultOk] at h

theorem addDoctor_error_frame (db : DB) (newId : String) (now : Nat) (p : Doctor)
    (h : resultOk (addDoctor db newId now p).1 = false) :
    (addDoctor db newId now p).2 = db := by
  unfold addDoctor at h ⊢
  split_ifs at h ⊢ <;> first | rfl | simp [resultOk] at h

theorem addHealthRecord_error_frame (db : DB) (newId : String) (now : Nat) (p : HealthRecord)
    (h : resultOk (addHealthRecord db newId now p).1 = false) :
    (addHealthRecord db newId now p).2 = db := by
  unfold addHealthRecord at h ⊢
  by_cases hv : p.patientID = "" ∨ p.officerID = "" ∨ p.diagnosisNotes = ""
  · rw [if_pos hv]
  · rw [if_neg hv] at h ⊢
    simp [jsFalsy, resultOk] at h

theorem addPrescription_error_frame (db : DB) (newId : String) (now : Nat) (p : Prescription)
    (h : resultOk (addPrescription db newId now p).1 = false) :
    (addPrescription db newId now p).2 = db := by
  unfold addPrescription at h ⊢
  by_cases hv : p.doctorID = "" ∨ p.patientID = "" ∨ p.medication = "" ∨ p.dosage = ""
  · rw [if_pos hv]
  · rw [if_neg hv] at h ⊢
    cases hg : Store.get db.healthRecords p.patientID <;>
      simp [jsFalsy, hg, resultOk] at h

theorem addLabTest_error_frame (db : DB) (newId : String) (now : Nat) (p : LabTest)
    (h : resultOk (addLabTest db newId now p).1 = false) :
    (addLabTest db newId now p).2 = db := by
  unfold addLabTest at h ⊢
  by_cases hv : p.doctorID = "" ∨ p.patientID = "" ∨ p.testType = "" ∨ p.results = ""
  · rw [if_pos hv]
  · rw [if_neg hv] at h ⊢
    cases hg : Store.get db.healthRecords p.patientID <;>
      simp [jsFalsy, hg, resultOk] at h

/-! ## Claim theorems -/

/-- C1. The claim says `addPrescription` fails with NotFound and inserts
nothing whenever the referenced doctor or patient is absent. On the code the
reference check `if (!existingPatientOpt || !existingDoctorOpt)` never fires
(the Azle `Opt` object is always truthy): with both references absent from
`emptyDB`, the call succeeds and the prescription is inserted. -/
theorem addPrescription_missing_refs_inserts :
    Store.get emptyDB.doctors "d1" = none ∧
    Store.get emptyDB.patients "p1" = none ∧
    (addPrescription emptyDB "rx1" 7 rxPayload).1 =
      .ok { rxPayload with id := "rx1", createdAt := 7 } ∧
    Store.get (addPrescription emptyDB "rx1" 7 rxPayload).2.prescriptions "rx1" =
      some { rxPayload with id := "rx1", createdAt := 7 } := by
  decide

/-- C2. The claim says a successful `updatePatient(id, payload)` keeps the
record's `id` equal to `id` and sets `updatedAt` ≥ `createdAt`. The payload
is a complete `Patient`, and the spread `{...existingPatient, ...payload,
updatedAt: Some(now)}` overwrites `id` and `createdAt` from the payload: at
key `"p1"` (stored record `alice`, `createdAt = 100`) with `bobPayload`
(`id = "p2"`, `createdAt = 999`) at time `50`, the stored record's id becomes
`"p2"` and its `updatedAt = 50 < 999 = createdAt`. -/
theorem updatePatient_overwrites_id_and_createdAt :
    Store.get db1.patients "p1" = some alice ∧ alice.id = "p1" ∧
    (updatePatient db1 50 "p1" bobPayload).1 =
      .ok { bobPayload with updatedAt := some 50 } ∧
    Store.get (updatePatient db1 50 "p1" bobPayload).2.patients "p1" =
      some { bobPayload with updatedAt := some 50 } ∧
    ({ bobPayload with updatedAt := some 50 } : Patient).id ≠ "p1" ∧
    ({ bobPayload with updatedAt := some 50 } : Patient).updatedAt = some 50 ∧
    ¬(({ bobPayload with updatedAt := some 50 } : Patient).createdAt ≤ 50) := by
  decide

/-- C5 counterexample. The claim says `updatePatient` on an existing id
rejects a payload whose gender is outside {male, female} with
`InvalidPayload` and leaves the store unchanged. `updatePatient` only checks
field presence: the payload `aliceBadGender` (gender `"unknown"`) is
accepted, the call returns Ok and the store changes. -/
theorem updatePatient_accepts_invalid_gender :
    Store.get db1.patients "p1" = some alice ∧
    (updatePatient db1 5 "p1" aliceBadGender).1 =
      .ok { aliceBadGender with updatedAt := some 5 } ∧
    (updatePatient db1 5 "p1" aliceBadGender).2.patients ≠ db1.patients := by
  decide

/-- C6. The claim says `addHealthRecord` fails with NotFound and inserts
nothing when `patientID` is not a key of the patients store. The existence
check `if (!existingPatientOpt)` never fires (the Azle `Opt` object is always
truthy): with patient `"p9"` absent from `emptyDB`, the record is inserted
and returned Ok — with `labTestIDs` reset to absent and `prescriptionIDs`
reset to the empty sequence, as the claim's second half states. -/
theorem addHealthRecord_missing_patient_inserts :
    Store.get emptyDB.patients "p9" = none ∧
    (addHealthRecord emptyDB "h1" 3 hrPayload).1 =
      .ok { hrPayload with
            id := "h1", createdAt := 3, labTestIDs := none, prescriptionIDs := [] } ∧
    Store.get (addHealthRecord emptyDB "h1" 3 hrPayload).2.healthRecords "h1" =
      some { hrPayload with
             id := "h1", createdAt := 3, labTestIDs := none, prescriptionIDs := [] } := by
  decide

/-- C7 counterexample. The claim says `addPatient` on the example payload
`{name: "Alice", age: 30, gender: "female", bloodType: "O",
medicalHistory: ""}` returns Ok. The presence check `!payload.medicalHistory`
is true for the empty string, so the call returns `InvalidPayload` and
inserts nothing. -/
theorem addPatient_rejects_empty_history :
    (addPatient emptyDB "u1" 0 aliceExamplePayload).1 =
      .error (.InvalidPayload "Invalid patient payload") ∧
    (addPatient emptyDB "u1" 0 aliceExamplePayload).2 = emptyDB := by
  decide

/-- C7 amended. With a non-empty `medicalHistory` the example payload is
accepted and the stored patient's `updatedAt` is absent; the same payload
with an empty `name` is rejected with `InvalidPayload`. -/
theorem addPatient_alice_example :
    (addPatient emptyDB "u1" 0 { aliceExamplePayload with medicalHistory := "none" }).1 =
      .ok { aliceExamplePayload with
            medicalHistory := "none", id := "u1", createdAt := 0, updatedAt := none } ∧
    (addPatient emptyDB "u1" 0 { aliceExamplePayload with
        medicalHistory := "none", name := "" }).1 =
      .error (.InvalidPayload "Invalid patient payload") := by
  decide

/-- C9 counterexample. The claim says the only health-record-store mutation
`addPrescription` can perform is rewriting one existing entry. The linkage
code fetches the record under the key `payload.patientID` but re-inserts it
under the record's own `id` field: in `dbHR` (one record filed under `"p1"`
with `id = "h1"`), `addPrescription` creates a second entry under `"h1"`
instead of rewriting the entry at `"p1"`. -/
theorem addPrescription_creates_second_hr_entry :
    Store.get dbHR.healthRecords "h1" = none ∧
    dbHR.healthRecords.length = 1 ∧
    Store.get (addPrescription dbHR "rx1" 9 rxPayload).2.healthRecords "h1" =
      some { hrAtP1 with prescriptionIDs := ["rx1"] } ∧
    Store.get (addPrescription dbHR "rx1" 9 rxPayload).2.healthRecords "p1" =
      some hrAtP1 ∧
    (addPrescription dbHR "rx1" 9 rxPayload).2.healthRecords.length = 2 := by
  decide

/-- C10. `getPatient`, `updatePatient` and `deletePatient` validate the id
first (`if (!id)`): on the empty-string id each returns NotFound with the
same message whatever the stores and the payload hold, and the state is
untouched. -/
theorem empty_id_not_found (db : DB) (now : Nat) (payload : Patient) :
    getPatient db "" = .error (.NotFound "Invalid patient ID") ∧
    (updatePatient db now "" payload).1 = .error (.NotFound "Invalid patient ID") ∧
    (updatePatient db now "" payload).2 = db ∧
    (deletePatient db "").1 = .error (.NotFound "Invalid patient ID") ∧
    (deletePatient db "").2 = db := by
  refine ⟨rfl, ?_, ?_, rfl, rfl⟩ <;> simp [updatePatient]

/-- C3. A payload passing every `addPatient` check is stored under a fresh
id: the call returns Ok with the input fields plus the assigned id and
`createdAt`, `updatedAt` absent, and `getPatient` on the returned id finds
exactly that record. (Generated UUIDs are non-empty, whence `hid`.) -/
theorem addPatient_getPatient_roundtrip
    (db : DB) (newId : String) (now : Nat) (payload : Patient)
    (hv : ValidPatientPayload payload) (hid : newId ≠ "") :
    (addPatient db newId now payload).1 =
      .ok { payload with id := newId, createdAt := now, updatedAt := none } ∧
    getPatient (addPatient db newId now payload).2 newId =
      .ok { payload with id := newId, createdAt := now, updatedAt := none } := by
  obtain ⟨h1, h2, h3, h4, h5⟩ := hv
  unfold addPatient
  rw [if_neg h1, if_neg h2, if_neg h3, if_neg h4, if_neg h5]
  refine ⟨rfl, ?_⟩
  unfold getPatient
  rw [if_neg hid]
  simp only
  rw [Store.get_insert_self]

/-- C3 witness: the roundtrip at a concrete valid payload. -/
theorem addPatient_getPatient_roundtrip_witness :
    (addPatient emptyDB "u7" 42 alice).1 =
      .ok { alice with id := "u7", createdAt := 42, updatedAt := none } ∧
    getPatient (addPatient emptyDB "u7" 42 alice).2 "u7" =
      .ok { alice with id := "u7", createdAt := 42, updatedAt := none } :=
  addPatient_getPatient_roundtrip emptyDB "u7" 42 alice (by decide) (by decide)

/-- C5 amended. Of the four Validator rules the claim lists, `updatePatient`
enforces only the presence check (which covers age ≤ 0, since a zero age is
falsy): on an existing non-empty id and a payload with `age = 0`, the call
returns `InvalidPayload` and leaves the state unchanged. The gender,
blood-type and medical-history-length rules are not checked on update (see
the counterexample). -/
theorem updatePatient_zero_age_rejected
    (db : DB) (now : Nat) (id : String) (payload : Patient)
    (hid : id ≠ "") (_hmem : ∃ p, Store.get db.patients id = some p)
    (hage : payload.age = 0) :
    (updatePatient db now id payload).1 =
      .error (.InvalidPayload "Invalid patient payload") ∧
    (updatePatient db now id payload).2 = db := by
  unfold updatePatient
  rw [if_neg hid, if_pos (by right; left; exact hage)]
  exact ⟨rfl, rfl⟩

/-- C5 amended witness: `alice` with a zero age against the state `db1`. -/
theorem updatePatient_zero_age_rejected_witness :
    (updatePatient db1 5 "p1" { alice with age := 0 }).1 =
      .error (.InvalidPayload "Invalid patient payload") ∧
    (updatePatient db1 5 "p1" { alice with age := 0 }).2 = db1 :=
  updatePatient_zero_age_rejected db1 5 "p1" { alice with age := 0 }
    (by decide) ⟨alice, by decide⟩ rfl

/-- C8. For a non-empty id (every key the service issues is a non-empty
UUID): if the id is bound, `deletePatient` returns Ok with the removed
record and a subsequent `getPatient` of the same id is NotFound; if the id
is unbound, `deletePatient` is NotFound and the state is untouched. -/
theorem deletePatient_present_absent
    (db : DB) (id : String) (hid : id ≠ "") :
    (∀ p, Store.get db.patients id = some p →
      (deletePatient db id).1 = .ok p ∧
      errIsNotFound (getPatient (deletePatient db id).2 id) = true) ∧
    (Store.get db.patients id = none →
      errIsNotFound (deletePatient db id).1 = true ∧
      (deletePatient db id).2 = db) := by
  constructor
  · intro p hp
    unfold deletePatient
    rw [if_neg hid]
    simp only [Store.remove, hp]
    constructor
    · trivial
    · unfold getPatient
      rw [if_neg hid]
      have hnone := Store.get_filter_self db.patients id
      simp only [hnone]
      rfl
  · intro hp
    unfold deletePatient
    rw [if_neg hid]
    simp only [Store.remove, hp, Store.filter_eq_of_get_none db.patients id hp]
    constructor <;> trivial

/-- C8 witness: deleting the present id `"p1"` and the absent id `"zz"` in
the one-patient state `db1`. -/
theorem deletePatient_present_absent_witness :
    ((deletePatient db1 "p1").1 = .ok alice ∧
     errIsNotFound (getPatient (deletePatient db1 "p1").2 "p1") = true) ∧
    (errIsNotFound (deletePatient db1 "zz").1 = true ∧
     (deletePatient db1 "zz").2 = db1) :=
  ⟨(deletePatient_present_absent db1 "p1" (by decide)).1 alice (by decide),
   (deletePatient_present_absent db1 "zz" (by decide)).2 (by decide)⟩

/-- C4. Whenever any of the seven mutating operations returns an error, the
five stores are exactly as they were before the call: every validation
failure returns before any insert, and a failed remove of an absent key
leaves the map untouched. -/
theorem error_leaves_stores_unchanged
    (db : DB) (newId : String) (now : Nat) (id : String)
    (pp : Patient) (dp : Doctor) (hp : HealthRecord) (rp : Prescription) (tp : LabTest) :
    (resultOk (addPatient db newId now pp).1 = false →
      (addPatient db newId now pp).2 = db) ∧
    (resultOk (updatePatient db now id pp).1 = false →
      (updatePatient db now id pp).2 = db) ∧
    (resultOk (deletePatient db id).1 = false →
      (deletePatient db id).2 = db) ∧
    (resultOk (addDoctor db newId now dp).1 = false →
      (addDoctor db newId now dp).2 = db) ∧
    (resultOk (addHealthRecord db newId now hp).1 = false →
      (addHealthRecord db newId now hp).2 = db) ∧
    (resultOk (addPrescription db newId now rp).1 = false →
      (addPrescription db newId now rp).2 = db) ∧
    (resultOk (addLabTest db newId now tp).1 = false →
      (addLabTest db newId now tp).2 = db) :=
  ⟨addPatient_error_frame db newId now pp,
   updatePatient_error_frame db now id pp,
   deletePatient_error_frame db id,
   addDoctor_error_frame db newId now dp,
   addHealthRecord_error_frame db newId now hp,
   addPrescription_error_frame db newId now rp,
   addLabTest_error_frame db newId now tp⟩

/-- C4 witness: one failing call per operation against concrete states. -/
theorem error_leaves_stores_unchanged_witness :
    (addPatient emptyDB "u" 0 blankPatient).2 = emptyDB ∧
    (updatePatient emptyDB 0 "zz" blankPatient).2 = emptyDB ∧
    (deletePatient emptyDB "zz").2 = emptyDB ∧
    (addDoctor emptyDB "u" 0 blankDoctor).2 = emptyDB ∧
    (addHealthRecord emptyDB "u" 0 blankHealthRecord).2 = emptyDB ∧
    (addPrescription emptyDB "u" 0 blankPrescription).2 = emptyDB ∧
    (addLabTest emptyDB "u" 0 blankLabTest).2 = emptyDB := by
  have h := error_leaves_stores_unchanged emptyDB "u" 0 "zz"
    blankPatient blankDoctor blankHealthRecord blankPrescription blankLabTest
  exact ⟨h.1 (by decide), h.2.1 (by decide), h.2.2.1 (by decide),
         h.2.2.2.1 (by decide), h.2.2.2.2.1 (by decide),
         h.2.2.2.2.2.1 (by decide), h.2.2.2.2.2.2 (by decide)⟩

/-- C9 amended. `addPrescription` never touches the patients, doctors or
lab-test stores, and `addLabTest` never touches the patients, doctors or
prescription stores. Each either leaves its own store alone (on a validation
error) or inserts exactly the new child under the fresh id. The only other
mutation is the linkage write: when a health record is filed under the key
`payload.patientID`, the operation re-inserts the appended record under that
record's own `id` field — a rewrite of an existing entry if that id is
already a key, but a brand-new entry otherwise (see the counterexample). -/
theorem childAdd_frame (db : DB) (newId : String) (now : Nat)
    (rp : Prescription) (tp : LabTest) :
    ((addPrescription db newId now rp).2.patients = db.patients ∧
     (addPrescription db newId now rp).2.doctors = db.doctors ∧
     (addPrescription db newId now rp).2.labTests = db.labTests ∧
     ((addPrescription db newId now rp).2.prescriptions = db.prescriptions ∨
      (addPrescription db newId now rp).2.prescriptions =
        db.prescriptions.insert newId { rp with id := newId, createdAt := now }) ∧
     ((addPrescription db newId now rp).2.healthRecords = db.healthRecords ∨
      ∃ hr, Store.get db.healthRecords rp.patientID = some hr ∧
        (addPrescription db newId now rp).2.healthRecords =
          db.healthRecords.insert hr.id
            { hr with prescriptionIDs := hr.prescriptionIDs ++ [newId] })) ∧
    ((addLabTest db newId now tp).2.patients = db.patients ∧
     (addLabTest db newId now tp).2.doctors = db.doctors ∧
     (addLabTest db newId now tp).2.prescriptions = db.prescriptions ∧
     ((addLabTest db newId now tp).2.labTests = db.labTests ∨
      (addLabTest db newId now tp).2.labTests =
        db.labTests.insert newId { tp with id := newId, createdAt := now }) ∧
     ((addLabTest db newId now tp).2.healthRecords = db.healthRecords ∨
      ∃ hr, Store.get db.healthRecords tp.patientID = some hr ∧
        (addLabTest db newId now tp).2.healthRecords =
          db.healthRecords.insert hr.id
            { hr with labTestIDs := some (hr.labTestIDs.getD [] ++ [newId]) })) := by
  constructor
  · by_cases hv : rp.doctorID = "" ∨ rp.patientID = "" ∨ rp.medication = "" ∨ rp.dosage = ""
    · refine ⟨?_, ?_, ?_, Or.inl ?_, Or.inl ?_⟩ <;> simp [addPrescription, hv]
    · rcases hg : Store.get db.healthRecords rp.patientID with _ | hr
      · refine ⟨?_, ?_, ?_, Or.inr ?_, Or.inl ?_⟩ <;>
          simp [addPrescription, hv, jsFalsy, hg]
      · refine ⟨?_, ?_, ?_, Or.inr ?_, Or.inr ⟨hr, rfl, ?_⟩⟩ <;>
          simp [addPrescription, hv, jsFalsy, hg]
  · by_cases hv : tp.doctorID = "" ∨ tp.patientID = "" ∨ tp.testType = "" ∨ tp.results = ""
    · refine ⟨?_, ?_, ?_, Or.inl ?_, Or.inl ?_⟩ <;> simp [addLabTest, hv]
    · rcases hg : Store.get db.healthRecords tp.patientID with _ | hr
      · refine ⟨?_, ?_, ?_, Or.inr ?_, Or.inl ?_⟩ <;>
          simp [addLabTest, hv, jsFalsy, hg]
      · refine ⟨?_, ?_, ?_, Or.inr ?_, Or.inr ⟨hr, rfl, ?_⟩⟩ <;>
          simp [addLabTest, hv, jsFalsy, hg]

end HealthRecords
